import Mathlib

/-
Shallow embedding of the vkubeviewer NodeInfo reconciler
(src/controllers/nodeinfo_controller.go) and the vSphere session login
(src/main.go, vlogin).  External calls (k8s Get/Update, view creation,
bulk property retrieval, property-collector retrieval) are modelled by
oracle parameters recording what the external world would answer; the
control flow of the Go code is translated branch by branch.
-/

set_option autoImplicit false

namespace VKubeViewer

/-- Result of one external retrieval call: either the fetched data or a
retrieval failure (govmomi returns an error; no partial data). -/
inductive RResult (α : Type) where
  | ok (a : α)
  | fail
  deriving DecidableEq, Repr

/-- The second-level variant inside a DVPortgroup's default port config:
`portConfig.Vlan` is one of the `BaseVmwareDistributedVirtualSwitchVlanSpec`
subtypes.  The Go code type-asserts it to
`*types.VmwareDistributedVirtualSwitchVlanIdSpec` (the single-id variant). -/
inductive VlanSpec where
  | vlanId (id : Int)
  | trunk
  | pvlan
  deriving DecidableEq, Repr

/-- `pg.Config.DefaultPortConfig` is a `BaseDVPortSetting`; the Go code
type-asserts it to `*types.VMwareDVSPortSetting`. -/
inductive PortSetting where
  | vmwareDVS (vlan : VlanSpec)
  | otherSetting
  deriving DecidableEq, Repr

/-- Properties of an `mo.Network` (standard network) as filled in by
`property.DefaultCollector(...).Retrieve`. -/
structure NetworkData where
  name : String
  overallStatus : String
  deriving DecidableEq, Repr

/-- Properties of an `mo.DistributedVirtualPortgroup` as filled in by the
property collector. -/
structure DVPGData where
  name : String
  overallStatus : String
  defaultPortConfig : PortSetting
  deriving DecidableEq, Repr

/-- One entry of `vm.Network` (a managed object reference), together with
the oracle answers the property collector would give when the code
retrieves it as an `mo.Network` resp. an `mo.DistributedVirtualPortgroup`. -/
structure NetworkRef where
  refType : String
  netRetrieve : RResult NetworkData
  pgRetrieve : RResult DVPGData
  deriving DecidableEq, Repr

/-- One `mo.VirtualMachine` as delivered by the bulk `Retrieve`: the summary
fields the reconciler reads, plus its list of network references. -/
structure VirtualMachine where
  name : String
  guestId : String
  numCpu : Int
  cpuReservation : Int
  memorySizeMB : Int
  memoryReservation : Int
  powerState : String
  hwVersion : String
  ipAddress : String
  vmPathName : String
  network : List NetworkRef
  deriving DecidableEq, Repr

/-- The `NodeInfo.status` sub-record written by the reconciler. -/
structure NodeStatus where
  vmGuestId : String
  vmTotalCPU : Int
  vmResvdCPU : Int
  vmTotalMem : Int
  vmResvdMem : Int
  vmPowerState : String
  vmHwVersion : String
  vmIpAddress : String
  pathToVM : String
  switchType : String
  netName : String
  netOverallStatus : String
  vlanId : Int
  deriving DecidableEq, Repr

/-- The `NodeInfo` resource as fetched from the store: its spec carries the
target name (`node.Spec.Nodename`) and it carries the current status. -/
structure NodeInfo where
  nodename : String
  status : NodeStatus
  deriving DecidableEq, Repr

/-- Errors the reconciler can return to the controller runtime, one per
`return ctrl.Result{}, err` site. -/
inductive RError where
  | fetchErr
  | viewErr
  | retrieveErr
  | netRetrieveErr
  | pgRetrieveErr
  | updateErr
  deriving DecidableEq, Repr

/-- Outcome of the in-memory matching/mapping loop over the retrieved VMs:
a new status, an early error return, or a Go runtime panic (from a failed
unchecked type assertion). -/
inductive SyncResult where
  | ok (s : NodeStatus)
  | err (e : RError)
  | crash
  deriving DecidableEq, Repr

/-- The nine scalar assignments `node.Status.X = vm.Summary...` performed
when a VM's name equals the nodename (lines 123-131). -/
def setScalars (vm : VirtualMachine) (s : NodeStatus) : NodeStatus :=
  { s with
    vmGuestId := vm.guestId
    vmTotalCPU := vm.numCpu
    vmResvdCPU := vm.cpuReservation
    vmTotalMem := vm.memorySizeMB
    vmResvdMem := vm.memoryReservation
    vmPowerState := vm.powerState
    vmHwVersion := vm.hwVersion
    vmIpAddress := vm.ipAddress
    pathToVM := vm.vmPathName }

/-- The body of `for _, ref := range vm.Network` (lines 134-176).
`ref.Type == "Network"`: set SwitchType, retrieve the network, on error
return the error, else set NetName/NetOverallStatus.
`ref.Type == "DistributedVirtualPortgroup"`: set SwitchType, retrieve the
portgroup, on error return the error, else set NetName/NetOverallStatus and
perform the two unchecked type assertions on the port config and its vlan;
a failed assertion is a Go panic (`crash`).  Any other type tag falls
through both branches: the reference is skipped silently. -/
def processNet (ref : NetworkRef) (s : NodeStatus) : SyncResult :=
  if ref.refType = "Network" then
    let s1 := { s with switchType := "Standard" }
    match ref.netRetrieve with
    | .fail => .err .netRetrieveErr
    | .ok n => .ok { s1 with netName := n.name, netOverallStatus := n.overallStatus }
  else if ref.refType = "DistributedVirtualPortgroup" then
    let s1 := { s with switchType := "Distributed" }
    match ref.pgRetrieve with
    | .fail => .err .pgRetrieveErr
    | .ok pg =>
      let s2 := { s1 with netName := pg.name, netOverallStatus := pg.overallStatus }
      match pg.defaultPortConfig with
      | .vmwareDVS vlan =>
        match vlan with
        | .vlanId id => .ok { s2 with vlanId := id }
        | _ => .crash
      | .otherSetting => .crash
  else
    .ok s

/-- The network loop: fold `processNet` over `vm.Network`, propagating the
first error return or panic. -/
def foldNets : List NetworkRef → NodeStatus → SyncResult
  | [], s => .ok s
  | r :: rs, s =>
    match processNet r s with
    | .ok s2 => foldNets rs s2
    | .err e => .err e
    | .crash => .crash

/-- The body of `for _, vm := range vms` (lines 118-179): if the VM's name
equals the nodename, assign the scalar fields and run the network loop,
otherwise leave the status alone. -/
def processVM (nodename : String) (vm : VirtualMachine) (s : NodeStatus) : SyncResult :=
  if vm.name = nodename then
    foldNets vm.network (setScalars vm s)
  else
    .ok s

/-- The VM loop over the whole retrieved set (no `break`: every VM of the
set is visited, so a later match overwrites an earlier one). -/
def syncVMs (nodename : String) : List VirtualMachine → NodeStatus → SyncResult
  | [], s => .ok s
  | vm :: rest, s =>
    match processVM nodename vm s with
    | .ok s2 => syncVMs nodename rest s2
    | .err e => .err e
    | .crash => .crash

/-- Result of `r.Client.Get` at the start of `Reconcile`: the resource was
found, it no longer exists (a k8s NotFound error), or some other error. -/
inductive FetchResult where
  | found (node : NodeInfo)
  | notFound
  | otherErr
  deriving Repr

/-- How one `Reconcile` call ends: a normal return carrying the requeue
delay (in minutes, `none` for `ctrl.Result\x7b\x7d`) and the error value, or a
propagating Go panic. -/
inductive Outcome where
  | returns (requeueAfterMinutes : Option Nat) (error : Option RError)
  | crashed
  deriving DecidableEq, Repr

/-- Observable trace of one `Reconcile` call: its outcome, whether the
container view was created, whether `Destroy` ran on it (the `defer` at
line 99), and the payload of the `r.Status().Update` call if one was made
(`none` when `Reconcile` ends before reaching the update). -/
structure ReconcileTrace where
  outcome : Outcome
  viewCreated : Bool
  viewDestroyed : Bool
  updateCall : Option NodeStatus
  deriving DecidableEq, Repr

/-- `NodeInfoReconciler.Reconcile` (lines 59-192), with the external calls
answered by the oracle parameters: `fetch` for `r.Client.Get`, `viewOk` for
`CreateContainerView`, `vmsRetrieve` for the bulk `Retrieve`, `updateOk`
for `r.Status().Update`.  On a NotFound fetch error the code returns
`ctrl.Result\x7b\x7d, client.IgnoreNotFound(err)`, i.e. nil error; on full
success it returns `RequeueAfter: 1 minute` and nil error.  The deferred
`vvm.Destroy` runs on every exit after the view was created, including
panic unwinding. -/
def reconcile (fetch : FetchResult) (viewOk : Bool)
    (vmsRetrieve : RResult (List VirtualMachine)) (updateOk : Bool) : ReconcileTrace :=
  match fetch with
  | .notFound => ⟨.returns none none, false, false, none⟩
  | .otherErr => ⟨.returns none (some .fetchErr), false, false, none⟩
  | .found node =>
    if viewOk then
      match vmsRetrieve with
      | .fail => ⟨.returns none (some .retrieveErr), true, true, none⟩
      | .ok vms =>
        match syncVMs node.nodename vms node.status with
        | .ok s =>
          if updateOk then ⟨.returns (some 1) none, true, true, some s⟩
          else ⟨.returns none (some .updateErr), true, true, some s⟩
        | .err e => ⟨.returns none (some e), true, true, none⟩
        | .crash => ⟨.crashed, true, true, none⟩
    else
      ⟨.returns none (some .viewErr), false, false, none⟩

/-- What `soap.ParseURL` hands back in `vlogin` (src/main.go line 78): the
URL object (possibly nil) and the error value (possibly nil), modelled as
two options. -/
structure ParseResult where
  u : Option Unit
  err : Option Unit
  deriving DecidableEq, Repr

/-- How `vlogin` ends: `os.Exit(code)`, or a normal return whose error
component is the third return value handed to the caller. -/
inductive VloginResult where
  | exit (code : Nat)
  | ret (err : Option Unit)
  deriving DecidableEq, Repr

/-- `vlogin` (src/main.go lines 61-125): parse the URL (exit 1 if the URL
object is nil or the error is non-nil), log in the vim25 client via the
session cache (exit 1 on error), create the govmomi client (exit 1 on
error), and finally `return c1, c2, nil`.  Oracle parameters stand for the
answers of the external calls. -/
def vlogin (p : ParseResult) (loginOk : Bool) (newClientOk : Bool) : VloginResult :=
  match p.u with
  | none => .exit 1
  | some _ =>
    match p.err with
    | some _ => .exit 1
    | none =>
      if loginOk then
        if newClientOk then .ret none else .exit 1
      else .exit 1

/-- The condition under which `vlogin` hits one of its failure branches. -/
def vloginFails (p : ParseResult) (loginOk : Bool) (newClientOk : Bool) : Prop :=
  p.u = none ∨ p.err.isSome = true ∨ loginOk = false ∨ newClientOk = false

instance (p : ParseResult) (l n : Bool) : Decidable (vloginFails p l n) := by
  unfold vloginFails; infer_instance

/- ----------------------------------------------------------------------
Status patches: the matching loop only ever overwrites status fields with
values computed from the retrieved inventory data, never from the incoming
status.  A `StatusPatch` records, per field, the value the loop would
write (`none` = field untouched on the taken path); this is the key to the
determinism/idempotence analysis of the loop.
---------------------------------------------------------------------- -/

/-- Per-field overwrite mask produced by one pass of the matching loop. -/
structure StatusPatch where
  vmGuestId : Option String
  vmTotalCPU : Option Int
  vmResvdCPU : Option Int
  vmTotalMem : Option Int
  vmResvdMem : Option Int
  vmPowerState : Option String
  vmHwVersion : Option String
  vmIpAddress : Option String
  pathToVM : Option String
  switchType : Option String
  netName : Option String
  netOverallStatus : Option String
  vlanId : Option Int
  deriving DecidableEq, Repr

def emptyPatch : StatusPatch :=
  ⟨none, none, none, none, none, none, none, none, none, none, none, none, none⟩

/-- Apply a patch to a status: each patched field is overwritten, the rest
carried over. -/
def applyPatch (p : StatusPatch) (s : NodeStatus) : NodeStatus where
  vmGuestId := p.vmGuestId.getD s.vmGuestId
  vmTotalCPU := p.vmTotalCPU.getD s.vmTotalCPU
  vmResvdCPU := p.vmResvdCPU.getD s.vmResvdCPU
  vmTotalMem := p.vmTotalMem.getD s.vmTotalMem
  vmResvdMem := p.vmResvdMem.getD s.vmResvdMem
  vmPowerState := p.vmPowerState.getD s.vmPowerState
  vmHwVersion := p.vmHwVersion.getD s.vmHwVersion
  vmIpAddress := p.vmIpAddress.getD s.vmIpAddress
  pathToVM := p.pathToVM.getD s.pathToVM
  switchType := p.switchType.getD s.switchType
  netName := p.netName.getD s.netName
  netOverallStatus := p.netOverallStatus.getD s.netOverallStatus
  vlanId := p.vlanId.getD s.vlanId

/-- Left-biased choice on options, used to compose patches. -/
def oOr {α : Type} : Option α → Option α → Option α
  | some a, _ => some a
  | none, b => b

/-- `patchComp p q` is the patch of applying `p` first, then `q`
(later writes win). -/
def patchComp (p q : StatusPatch) : StatusPatch where
  vmGuestId := oOr q.vmGuestId p.vmGuestId
  vmTotalCPU := oOr q.vmTotalCPU p.vmTotalCPU
  vmResvdCPU := oOr q.vmResvdCPU p.vmResvdCPU
  vmTotalMem := oOr q.vmTotalMem p.vmTotalMem
  vmResvdMem := oOr q.vmResvdMem p.vmResvdMem
  vmPowerState := oOr q.vmPowerState p.vmPowerState
  vmHwVersion := oOr q.vmHwVersion p.vmHwVersion
  vmIpAddress := oOr q.vmIpAddress p.vmIpAddress
  pathToVM := oOr q.pathToVM p.pathToVM
  switchType := oOr q.switchType p.switchType
  netName := oOr q.netName p.netName
  netOverallStatus := oOr q.netOverallStatus p.netOverallStatus
  vlanId := oOr q.vlanId p.vlanId

/-- Outcome of the loop expressed as a patch instead of a status. -/
inductive PatchResult where
  | ok (p : StatusPatch)
  | err (e : RError)
  | crash
  deriving DecidableEq, Repr

/-- Interpret a patch-level outcome at a concrete incoming status. -/
def mapPR : PatchResult → NodeStatus → SyncResult
  | .ok p, s => .ok (applyPatch p s)
  | .err e, _ => .err e
  | .crash, _ => .crash

/-- Patch produced by `processNet` for one reference (same branch
structure). -/
def netPatch (ref : NetworkRef) : PatchResult :=
  if ref.refType = "Network" then
    match ref.netRetrieve with
    | .fail => .err .netRetrieveErr
    | .ok n =>
      .ok { emptyPatch with
        switchType := some "Standard"
        netName := some n.name
        netOverallStatus := some n.overallStatus }
  else if ref.refType = "DistributedVirtualPortgroup" then
    match ref.pgRetrieve with
    | .fail => .err .pgRetrieveErr
    | .ok pg =>
      match pg.defaultPortConfig with
      | .vmwareDVS vlan =>
        match vlan with
        | .vlanId id =>
          .ok { emptyPatch with
            switchType := some "Distributed"
            netName := some pg.name
            netOverallStatus := some pg.overallStatus
            vlanId := some id }
        | _ => .crash
      | .otherSetting => .crash
  else
    .ok emptyPatch

/-- Patch-level composition of a list of patch results. -/
def seqPR (f : PatchResult) (g : PatchResult) : PatchResult :=
  match f with
  | .ok p =>
    match g with
    | .ok q => .ok (patchComp p q)
    | .err e => .err e
    | .crash => .crash
  | .err e => .err e
  | .crash => .crash

/-- Patch of the network loop. -/
def foldNetPatches : List NetworkRef → PatchResult
  | [] => .ok emptyPatch
  | r :: rs => seqPR (netPatch r) (foldNetPatches rs)

/-- Patch of the nine scalar assignments. -/
def scalarPatch (vm : VirtualMachine) : StatusPatch :=
  { emptyPatch with
    vmGuestId := some vm.guestId
    vmTotalCPU := some vm.numCpu
    vmResvdCPU := some vm.cpuReservation
    vmTotalMem := some vm.memorySizeMB
    vmResvdMem := some vm.memoryReservation
    vmPowerState := some vm.powerState
    vmHwVersion := some vm.hwVersion
    vmIpAddress := some vm.ipAddress
    pathToVM := some vm.vmPathName }

/-- Patch of processing one VM. -/
def vmPatch (nodename : String) (vm : VirtualMachine) : PatchResult :=
  if vm.name = nodename then
    seqPR (.ok (scalarPatch vm)) (foldNetPatches vm.network)
  else
    .ok emptyPatch

/-- Patch of the whole VM loop. -/
def syncPatch (nodename : String) : List VirtualMachine → PatchResult
  | [] => .ok emptyPatch
  | vm :: rest => seqPR (vmPatch nodename vm) (syncPatch nodename rest)

/- ----------------------------------------------------------------------
Concrete inventory data used to exercise the model.
---------------------------------------------------------------------- -/

/-- An all-empty status, as on a freshly created resource. -/
def zeroStatus : NodeStatus :=
  ⟨"", 0, 0, 0, 0, "", "", "", "", "", "", "", 0⟩

/-- A distributed portgroup reference whose vlan spec is the trunk-range
variant. -/
def cTrunkRef : NetworkRef :=
  ⟨"DistributedVirtualPortgroup", .fail, .ok ⟨"dvpg-1", "green", .vmwareDVS .trunk⟩⟩

/-- A VM named node-a attached to the trunk-vlan portgroup. -/
def cTrunkVM : VirtualMachine :=
  ⟨"node-a", "ubuntu64Guest", 4, 0, 8192, 0, "poweredOn", "vmx-19", "10.0.0.1",
    "[ds1] node-a/node-a.vmx", [cTrunkRef]⟩

/-- A network reference whose kind tag matches neither recognized variant. -/
def cOpaqueRef : NetworkRef :=
  ⟨"OpaqueNetwork", .fail, .fail⟩

/-- A VM named node-a attached only to the unrecognized network kind. -/
def cOpaqueVM : VirtualMachine :=
  ⟨"node-a", "ubuntu64Guest", 4, 0, 8192, 0, "poweredOn", "vmx-19", "10.0.0.1",
    "[ds1] node-a/node-a.vmx", [cOpaqueRef]⟩

/-- First of two VMs sharing the name node-a (4 CPUs). -/
def cVMfour : VirtualMachine :=
  ⟨"node-a", "guestA", 4, 1, 1024, 1, "poweredOn", "vmx-17", "10.0.0.4", "[ds1] a.vmx", []⟩

/-- Second of two VMs sharing the name node-a (8 CPUs). -/
def cVMeight : VirtualMachine :=
  ⟨"node-a", "guestB", 8, 2, 2048, 2, "poweredOff", "vmx-19", "10.0.0.8", "[ds1] b.vmx", []⟩

/-- A standard-network reference that retrieves successfully. -/
def cStdRef : NetworkRef :=
  ⟨"Network", .ok ⟨"VM Network", "green"⟩, .fail⟩

/-- A VM named node-a attached to the standard network. -/
def cStdVM : VirtualMachine :=
  ⟨"node-a", "ubuntu64Guest", 4, 0, 8192, 0, "poweredOn", "vmx-19", "10.0.0.1",
    "[ds1] node-a/node-a.vmx", [cStdRef]⟩

/-- A status left by an earlier reconciliation of a distributed-switch VM:
the VLAN field holds 7. -/
def cPrevStatus : NodeStatus :=
  ⟨"ubuntu64Guest", 4, 0, 8192, 0, "poweredOn", "vmx-19", "10.0.0.1",
    "[ds1] node-a/node-a.vmx", "Distributed", "dvpg-old", "green", 7⟩

/-- The status the reconciler commits for `cStdVM` starting from
`cPrevStatus`: scalar and network fields freshly assigned, but the VLAN
field still holding the stale 7. -/
def cAfterStd : NodeStatus :=
  ⟨"ubuntu64Guest", 4, 0, 8192, 0, "poweredOn", "vmx-19", "10.0.0.1",
    "[ds1] node-a/node-a.vmx", "Standard", "VM Network", "green", 7⟩

/- ----------------------------------------------------------------------
Helper lemmas.
---------------------------------------------------------------------- -/

theorem oOr_getD {α : Type} (a b : Option α) (c : α) :
    (oOr a b).getD c = a.getD (b.getD c) := by
  cases a <;> rfl

theorem getD_getD {α : Type} (a : Option α) (c : α) :
    a.getD (a.getD c) = a.getD c := by
  cases a <;> rfl

theorem applyPatch_empty (s : NodeStatus) : applyPatch emptyPatch s = s := rfl

theorem applyPatch_comp (p q : StatusPatch) (s : NodeStatus) :
    applyPatch (patchComp p q) s = applyPatch q (applyPatch p s) := by
  simp [applyPatch, patchComp, oOr_getD]

theorem applyPatch_idem (p : StatusPatch) (s : NodeStatus) :
    applyPatch p (applyPatch p s) = applyPatch p s := by
  simp [applyPatch, getD_getD]

theorem processNet_patch (ref : NetworkRef) (s : NodeStatus) :
    processNet ref s = mapPR (netPatch ref) s := by
  unfold processNet netPatch
  by_cases h1 : ref.refType = "Network"
  · simp only [if_pos h1]
    cases ref.netRetrieve with
    | fail => rfl
    | ok n => rfl
  · simp only [if_neg h1]
    by_cases h2 : ref.refType = "DistributedVirtualPortgroup"
    · simp only [if_pos h2]
      cases ref.pgRetrieve with
      | fail => rfl
      | ok pg =>
        obtain ⟨pn, po, pcfg⟩ := pg
        cases pcfg with
        | vmwareDVS vlan =>
          cases vlan with
          | vlanId id => rfl
          | trunk => rfl
          | pvlan => rfl
        | otherSetting => rfl
    · simp only [if_neg h2]
      rfl

theorem foldNets_patch (refs : List NetworkRef) :
    ∀ s : NodeStatus, foldNets refs s = mapPR (foldNetPatches refs) s := by
  induction refs with
  | nil => intro s; rfl
  | cons r rs ih =>
    intro s
    cases h : netPatch r with
    | ok p =>
      cases h2 : foldNetPatches rs with
      | ok q =>
        simp [foldNets, foldNetPatches, processNet_patch, h, h2, mapPR, seqPR, ih,
          applyPatch_comp]
      | err e =>
        simp [foldNets, foldNetPatches, processNet_patch, h, h2, mapPR, seqPR, ih]
      | crash =>
        simp [foldNets, foldNetPatches, processNet_patch, h, h2, mapPR, seqPR, ih]
    | err e =>
      simp [foldNets, foldNetPatches, processNet_patch, h, mapPR, seqPR]
    | crash =>
      simp [foldNets, foldNetPatches, processNet_patch, h, mapPR, seqPR]

theorem setScalars_patch (vm : VirtualMachine) (s : NodeStatus) :
    setScalars vm s = applyPatch (scalarPatch vm) s := rfl

theorem processVM_patch (n : String) (vm : VirtualMachine) (s : NodeStatus) :
    processVM n vm s = mapPR (vmPatch n vm) s := by
  unfold processVM vmPatch
  by_cases h : vm.name = n
  · simp only [h, if_true]
    rw [setScalars_patch, foldNets_patch]
    cases h2 : foldNetPatches vm.network with
    | ok q => simp [mapPR, seqPR, applyPatch_comp]
    | err e => simp [mapPR, seqPR]
    | crash => simp [mapPR, seqPR]
  · simp only [h, if_false]
    simp [mapPR, seqPR, applyPatch_empty]

theorem syncVMs_patch (n : String) (vms : List VirtualMachine) :
    ∀ s : NodeStatus, syncVMs n vms s = mapPR (syncPatch n vms) s := by
  induction vms with
  | nil => intro s; rfl
  | cons vm rest ih =>
    intro s
    cases h : vmPatch n vm with
    | ok p =>
      cases h2 : syncPatch n rest with
      | ok q =>
        simp [syncVMs, syncPatch, processVM_patch, h, h2, mapPR, seqPR, ih,
          applyPatch_comp]
      | err e =>
        simp [syncVMs, syncPatch, processVM_patch, h, h2, mapPR, seqPR, ih]
      | crash =>
        simp [syncVMs, syncPatch, processVM_patch, h, h2, mapPR, seqPR, ih]
    | err e =>
      simp [syncVMs, syncPatch, processVM_patch, h, mapPR, seqPR]
    | crash =>
      simp [syncVMs, syncPatch, processVM_patch, h, mapPR, seqPR]

theorem syncVMs_nomatch (n : String) (vms : List VirtualMachine) (s : NodeStatus)
    (h : ∀ vm ∈ vms, vm.name ≠ n) : syncVMs n vms s = .ok s := by
  induction vms with
  | nil => rfl
  | cons vm rest ih =>
    have h1 : vm.name ≠ n := h vm (List.mem_cons_self vm rest)
    have h2 : ∀ v ∈ rest, v.name ≠ n := fun v hv => h v (List.mem_cons_of_mem vm hv)
    simp [syncVMs, processVM, h1, ih h2]

theorem syncVMs_append (n : String) (xs ys : List VirtualMachine) :
    ∀ s : NodeStatus, syncVMs n (xs ++ ys) s =
      match syncVMs n xs s with
      | .ok t => syncVMs n ys t
      | .err e => .err e
      | .crash => .crash := by
  induction xs with
  | nil => intro s; rfl
  | cons vm rest ih =>
    intro s
    cases h : processVM n vm s with
    | ok s2 => simp [syncVMs, h, ih]
    | err e => simp [syncVMs, h]
    | crash => simp [syncVMs, h]

/- ----------------------------------------------------------------------
Claim theorems.
---------------------------------------------------------------------- -/

/-- Claim C1: the spec requires that a Distributed binding whose
defaultPortConfig vlan is a trunk-range or private-VLAN variant makes the
resolution fail closed with a reported, recoverable UnknownVariantError and
never crash.  The code instead performs an unchecked type assertion: at a
matching VM attached to a trunk-vlan portgroup, Reconcile panics (crashes)
and commits nothing — the code contradicts the spec's stated intent. -/
theorem C1_trunk_vlan_crash :
    reconcile (.found ⟨"node-a", zeroStatus⟩) true (.ok [cTrunkVM]) true =
      ⟨.crashed, true, true, none⟩ := by
  rfl

/-- Claim C2, counterexample: for a network reference whose kind tag
("OpaqueNetwork") matches neither recognized variant, the claim says
resolution fails with UnknownVariantError; the code instead skips the
reference silently and the reconciliation completes with full success,
committing a status whose network-derived fields were never set. -/
theorem C2_counterexample :
    reconcile (.found ⟨"node-a", zeroStatus⟩) true (.ok [cOpaqueVM]) true =
      ⟨.returns (some 1) none, true, true, some (setScalars cOpaqueVM zeroStatus)⟩ := by
  rfl

/-- Claim C2, amended: a network reference whose declared kind tag matches
neither the Standard nor the Distributed variant is silently skipped — the
sync succeeds with no error and the network-derived status fields
(switchType, netName, netOverallStatus, vlanId) keep their previous
values. -/
theorem C2_unknown_kind_skipped (n : String) (vm : VirtualMachine) (ref : NetworkRef)
    (s : NodeStatus) (hname : vm.name = n) (hnet : vm.network = [ref])
    (h1 : ref.refType ≠ "Network") (h2 : ref.refType ≠ "DistributedVirtualPortgroup") :
    syncVMs n [vm] s = .ok (setScalars vm s) ∧
    (setScalars vm s).switchType = s.switchType ∧
    (setScalars vm s).netName = s.netName ∧
    (setScalars vm s).netOverallStatus = s.netOverallStatus ∧
    (setScalars vm s).vlanId = s.vlanId := by
  refine ⟨?_, rfl, rfl, rfl, rfl⟩
  have hpn : processNet ref (setScalars vm s) = .ok (setScalars vm s) := by
    unfold processNet
    rw [if_neg h1, if_neg h2]
  simp [syncVMs, processVM, hname, hnet, foldNets, hpn]

/-- Witness for C2: the amended claim at the concrete unrecognized
reference kind. -/
theorem C2_unknown_kind_skipped_witness :
    syncVMs "node-a" [cOpaqueVM] zeroStatus = .ok (setScalars cOpaqueVM zeroStatus) ∧
    (setScalars cOpaqueVM zeroStatus).switchType = zeroStatus.switchType ∧
    (setScalars cOpaqueVM zeroStatus).netName = zeroStatus.netName ∧
    (setScalars cOpaqueVM zeroStatus).netOverallStatus = zeroStatus.netOverallStatus ∧
    (setScalars cOpaqueVM zeroStatus).vlanId = zeroStatus.vlanId :=
  C2_unknown_kind_skipped "node-a" cOpaqueVM cOpaqueRef zeroStatus rfl rfl
    (by decide) (by decide)

/-- Claim C3, counterexample: with two inventory objects named node-a (the
first with 4 CPUs, the second with 8), the committed status carries the
second object's fields, not the first's — the VM loop has no break, so the
claimed first-match-wins rule is false. -/
theorem C3_counterexample :
    syncVMs "node-a" [cVMfour, cVMeight] zeroStatus =
      .ok (setScalars cVMeight (setScalars cVMfour zeroStatus)) ∧
    (setScalars cVMeight (setScalars cVMfour zeroStatus)).vmTotalCPU = 8 ∧
    cVMfour.numCpu = 4 ∧
    syncVMs "node-a" [cVMfour, cVMeight] zeroStatus ≠
      .ok (setScalars cVMfour zeroStatus) := by
  refine ⟨rfl, rfl, rfl, ?_⟩
  decide

/-- Claim C3, amended: when two or more objects of the set have the
declared target name, sync derives the StatusRecord from the LAST matching
object in Accessor order — every match is processed and later matches
overwrite earlier ones. -/
theorem C3_last_match_wins (n : String) (vms : List VirtualMachine)
    (vm : VirtualMachine) (s s₁ : NodeStatus)
    (hname : vm.name = n) (hnet : vm.network = [])
    (h : syncVMs n vms s = .ok s₁) :
    syncVMs n (vms ++ [vm]) s = .ok (setScalars vm s₁) := by
  have h2 := syncVMs_append n vms [vm] s
  rw [h] at h2
  rw [h2]
  simp [syncVMs, processVM, hname, hnet, foldNets]

/-- Witness for C3: the amended last-match-wins rule at the two concrete
VMs named node-a. -/
theorem C3_last_match_wins_witness :
    syncVMs "node-a" ([cVMfour] ++ [cVMeight]) zeroStatus =
      .ok (setScalars cVMeight (setScalars cVMfour zeroStatus)) :=
  C3_last_match_wins "node-a" [cVMfour] cVMeight zeroStatus
    (setScalars cVMfour zeroStatus) rfl rfl rfl

/-- Claim C4, counterexample: starting from a previous status whose VLAN
field is 7, a successful reconciliation of a matching VM with a Standard
network binding commits a status whose VLAN field is still 7 — a stale
value carried over from the earlier sync, not absent/zero as claimed. -/
theorem C4_counterexample :
    syncVMs "node-a" [cStdVM] cPrevStatus = .ok cAfterStd ∧
    cAfterStd.vlanId = 7 ∧ cAfterStd.vlanId ≠ 0 := by
  refine ⟨rfl, rfl, ?_⟩
  decide

/-- Claim C4, amended: on a successful match the status is the previous
status with the fields of the taken path overwritten; fields not assigned
on that path keep their previous values — in particular, for a Standard
binding the VLAN field retains whatever the previous status held. -/
theorem C4_standard_keeps_vlan (n : String) (vm : VirtualMachine) (ref : NetworkRef)
    (nd : NetworkData) (s : NodeStatus)
    (hname : vm.name = n) (hnet : vm.network = [ref])
    (hty : ref.refType = "Network") (hret : ref.netRetrieve = .ok nd) :
    syncVMs n [vm] s =
      .ok { setScalars vm s with
            switchType := "Standard", netName := nd.name,
            netOverallStatus := nd.overallStatus } ∧
    ({ setScalars vm s with
        switchType := "Standard", netName := nd.name,
        netOverallStatus := nd.overallStatus } : NodeStatus).vlanId = s.vlanId := by
  refine ⟨?_, rfl⟩
  have hpn : processNet ref (setScalars vm s) =
      .ok { setScalars vm s with
            switchType := "Standard", netName := nd.name,
            netOverallStatus := nd.overallStatus } := by
    unfold processNet
    rw [if_pos hty, hret]
  simp [syncVMs, processVM, hname, hnet, foldNets, hpn]

/-- Witness for C4: the amended claim at the concrete Standard-network VM
and the previous status holding VLAN 7. -/
theorem C4_standard_keeps_vlan_witness :
    syncVMs "node-a" [cStdVM] cPrevStatus =
      .ok { setScalars cStdVM cPrevStatus with
            switchType := "Standard", netName := "VM Network",
            netOverallStatus := "green" } ∧
    ({ setScalars cStdVM cPrevStatus with
        switchType := "Standard", netName := "VM Network",
        netOverallStatus := "green" } : NodeStatus).vlanId = cPrevStatus.vlanId :=
  C4_standard_keeps_vlan "node-a" cStdVM cStdRef ⟨"VM Network", "green"⟩ cPrevStatus
    rfl rfl rfl rfl

/-- Claim C5: when no object of the retrieved set carries the declared
target name, the reconciliation is a non-error outcome — the status update
is called with the unchanged previous values, the cycle returns a nil
error, and the next poll is requested after the fixed one-minute
interval. -/
theorem C5_nomatch_success (node : NodeInfo) (vms : List VirtualMachine)
    (h : ∀ vm ∈ vms, vm.name ≠ node.nodename) :
    reconcile (.found node) true (.ok vms) true =
      ⟨.returns (some 1) none, true, true, some node.status⟩ := by
  have hs := syncVMs_nomatch node.nodename vms node.status h
  simp [reconcile, hs]

/-- Witness for C5: the no-match outcome at a concrete resource whose
target name matches no VM of the set. -/
theorem C5_nomatch_success_witness :
    reconcile (.found ⟨"node-b", zeroStatus⟩) true (.ok [cVMfour]) true =
      ⟨.returns (some 1) none, true, true, some zeroStatus⟩ :=
  C5_nomatch_success ⟨"node-b", zeroStatus⟩ [cVMfour] (by decide)

/-- Claim C6: when the bulk retrieval fails, the whole call fails with no
partial result; Reconcile surfaces the error to the runtime and returns
before the status update is ever invoked, so the stored status is left
unchanged. -/
theorem C6_retrieve_error_atomic (node : NodeInfo) (updateOk : Bool) :
    reconcile (.found node) true .fail updateOk =
      ⟨.returns none (some .retrieveErr), true, true, none⟩ := rfl

/-- Claim C7: the deferred Destroy releases the container view exactly on
the executions that created it — on every exit path (success, retrieval
failure, variant-resolution crash, or status-write failure) the view is
destroyed iff it was created. -/
theorem C7_view_destroyed_iff_created (fetch : FetchResult) (viewOk : Bool)
    (vmsRetrieve : RResult (List VirtualMachine)) (updateOk : Bool) :
    (reconcile fetch viewOk vmsRetrieve updateOk).viewDestroyed =
      (reconcile fetch viewOk vmsRetrieve updateOk).viewCreated := by
  cases fetch with
  | notFound => rfl
  | otherErr => rfl
  | found node =>
    cases viewOk with
    | false => rfl
    | true =>
      cases vmsRetrieve with
      | fail => rfl
      | ok vms =>
        cases h : syncVMs node.nodename vms node.status with
        | ok s => cases updateOk <;> simp [reconcile, h]
        | err e => simp [reconcile, h]
        | crash => simp [reconcile, h]

/-- Claim C8: vlogin is process-fatal on every session-establishment
failure (nil URL object, URL parse error, rejected vim25 login, failed
govmomi client creation): it exits with code 1, and whenever it does
return, the error value handed to the caller is nil. -/
theorem C8_vlogin_fatal (p : ParseResult) (loginOk newClientOk : Bool) :
    vlogin p loginOk newClientOk =
      if vloginFails p loginOk newClientOk then .exit 1 else .ret none := by
  obtain ⟨u, e⟩ := p
  cases u with
  | none => simp [vlogin, vloginFails]
  | some uv =>
    cases e with
    | some ev => simp [vlogin, vloginFails]
    | none => cases loginOk <;> cases newClientOk <;> simp [vlogin, vloginFails]

/-- Claim C9: the matching loop has no hidden state — if a reconciliation
commits status s₁, re-running it against the unchanged inventory set (the
resource now carrying s₁) succeeds and commits the identical s₁. -/
theorem C9_sync_idempotent (node : NodeInfo) (vms : List VirtualMachine) (s₁ : NodeStatus)
    (h : (reconcile (.found node) true (.ok vms) true).updateCall = some s₁) :
    reconcile (.found ⟨node.nodename, s₁⟩) true (.ok vms) true =
      ⟨.returns (some 1) none, true, true, some s₁⟩ := by
  have hsync : syncVMs node.nodename vms node.status = .ok s₁ := by
    cases hs : syncVMs node.nodename vms node.status with
    | ok s =>
      simp [reconcile, hs] at h
      rw [h]
    | err e => simp [reconcile, hs] at h
    | crash => simp [reconcile, hs] at h
  have h1 := syncVMs_patch node.nodename vms node.status
  rw [hsync] at h1
  cases hq : syncPatch node.nodename vms with
  | ok q =>
    rw [hq] at h1
    simp [mapPR] at h1
    have h3 : syncVMs node.nodename vms s₁ = .ok s₁ := by
      rw [syncVMs_patch node.nodename vms s₁, hq]
      simp [mapPR]
      rw [h1, applyPatch_idem, ← h1]
    simp [reconcile, h3]
  | err e =>
    rw [hq] at h1
    simp [mapPR] at h1
  | crash =>
    rw [hq] at h1
    simp [mapPR] at h1

/-- Witness for C9: a first run over one matching VM commits
setScalars cVMfour zeroStatus; the second run commits the same record. -/
theorem C9_sync_idempotent_witness :
    reconcile (.found ⟨"node-a", setScalars cVMfour zeroStatus⟩) true (.ok [cVMfour]) true =
      ⟨.returns (some 1) none, true, true, some (setScalars cVMfour zeroStatus)⟩ :=
  C9_sync_idempotent ⟨"node-a", zeroStatus⟩ [cVMfour] (setScalars cVMfour zeroStatus) rfl

/-- Claim C10: a NotFound fetch error makes Reconcile return success with
no requeue request, no view creation, no retrieval and no status write;
any other fetch error is returned to the runtime as a failure, likewise
before any view creation or status write. -/
theorem C10_notfound_ignored (viewOk : Bool)
    (vmsRetrieve : RResult (List VirtualMachine)) (updateOk : Bool) :
    reconcile .notFound viewOk vmsRetrieve updateOk =
      ⟨.returns none none, false, false, none⟩ ∧
    reconcile .otherErr viewOk vmsRetrieve updateOk =
      ⟨.returns none (some .fetchErr), false, false, none⟩ :=
  ⟨rfl, rfl⟩

end VKubeViewer
